import Mathlib

/-!
Verification development for the meter-connection message pipeline
(custom_components/amshan/metercon.py).

Bytes are modelled as `List Nat` (each element a byte value 0..255).
Python exceptions (ValueError and its subclasses) are modelled with
`Except Unit`.  The external frame-reader / P1-parser capability (the
han library) and the standard-library JSON decoder are boundaries of
the specified core; they are modelled abstractly below, marked in
their doc comments.
-/

/-- The six ASCII whitespace byte values recognised by CPython via
Py_ISSPACE (space, tab, newline, vertical tab, form feed, carriage
return). -/
def isAsciiWs (b : Nat) : Bool :=
  b = 32 || b = 9 || b = 10 || b = 11 || b = 12 || b = 13

/-- Value of an ASCII hexadecimal digit byte (0-9, a-f, A-F), none
otherwise. -/
def hexVal (b : Nat) : Option Nat :=
  if 48 ≤ b ∧ b ≤ 57 then some (b - 48)
  else if 97 ≤ b ∧ b ≤ 102 then some (b - 87)
  else if 65 ≤ b ∧ b ≤ 70 then some (b - 55)
  else none

/-- Whether a byte is an ASCII hexadecimal digit (case-insensitive). -/
def isHexDigitByte (b : Nat) : Bool :=
  (hexVal b).isSome

/-- Tail of a base-16 digit run in a Python integer literal: digits
with single underscores allowed between digits (underscore byte 95). -/
def pyDigitsTail : List Nat → Bool
  | [] => true
  | [b] => isHexDigitByte b
  | 95 :: b :: rest => isHexDigitByte b && pyDigitsTail rest
  | b :: rest => isHexDigitByte b && pyDigitsTail rest

/-- A nonempty base-16 digit run, starting with a digit, with single
underscores allowed between digits. -/
def pyDigits : List Nat → Bool
  | [] => false
  | b :: rest => isHexDigitByte b && pyDigitsTail rest

/-- After a 0x or 0X base prefix, CPython allows one optional
underscore before the digits. -/
def pyAfterBasePrefix : List Nat → Bool
  | 95 :: rest => pyDigits rest
  | l => pyDigits l

/-- Unsigned part of a base-16 integer literal: optional 0x or 0X
prefix (bytes 48 then 120 or 88), then digits. -/
def pyUnsigned : List Nat → Bool
  | 48 :: x :: rest =>
    if x = 120 ∨ x = 88 then pyAfterBasePrefix rest
    else pyDigits (48 :: x :: rest)
  | l => pyDigits l

/-- Optional sign (43 is plus, 45 is minus) before the unsigned part. -/
def pySigned : List Nat → Bool
  | 43 :: rest => pyUnsigned rest
  | 45 :: rest => pyUnsigned rest
  | l => pyUnsigned l

/-- Drop ASCII whitespace from both ends of a byte string. -/
def stripAsciiWs (l : List Nat) : List Nat :=
  ((l.dropWhile isAsciiWs).reverse.dropWhile isAsciiWs).reverse

/-- Success condition of the CPython conversion int(payload, 16) on a
bytes object: surrounding ASCII whitespace, an optional sign, an
optional 0x/0X prefix, then at least one hex digit, with single
underscores allowed between digits. -/
def pyIntBase16Ok (l : List Nat) : Bool :=
  pySigned (stripAsciiWs l)

/-- Embedding of metercon._is_hex_string: the length must be even and
int(payload, 16) must succeed. -/
def _is_hex_string (p : List Nat) : Bool :=
  decide (p.length % 2 = 0) && pyIntBase16Ok p

/-- Embedding of metercon._hex_payload_to_binary on a bytes payload:
payload.decode(utf8) followed by bytes.fromhex, collapsed to byte
level.  bytes.fromhex skips ASCII whitespace between digit pairs and
demands two hex digits per byte; a non-ASCII byte makes either the
utf8 decode or fromhex raise ValueError, so both appear here as the
error case.  The str branch and the unsupported-type branch of the
source are not reachable from this module and are not modelled. -/
def _hex_payload_to_binary : List Nat → Except Unit (List Nat)
  | [] => .ok []
  | b :: rest =>
    if isAsciiWs b then _hex_payload_to_binary rest
    else
      match rest with
      | [] => .error ()
      | c :: rest2 =>
        match hexVal b, hexVal c with
        | some hi, some lo =>
          (_hex_payload_to_binary rest2).map (fun t => (hi * 16 + lo) :: t)
        | _, _ => .error ()

/-- Lower-case hex digit byte for a value below 16 (bytes.hex uses
lower case). -/
def hexDigitChar (n : Nat) : Nat :=
  if n < 10 then 48 + n else 87 + n

/-- Embedding of bytes.hex(): two lower-case hex digit bytes per input
byte, no separators. -/
def hexEncode : List Nat → List Nat
  | [] => []
  | b :: rest => hexDigitChar (b / 16) :: hexDigitChar (b % 16) :: hexEncode rest

/-- Each emitted byte of a successful fromhex consumes two input
bytes, so the output is at most half as long as the input. -/
theorem hex_payload_to_binary_len :
    ∀ (n : Nat) (p : List Nat), p.length ≤ n →
      ∀ q, _hex_payload_to_binary p = .ok q → 2 * q.length ≤ p.length := by
  intro n
  induction n with
  | zero =>
    intro p hp q h
    cases p with
    | nil =>
      simp only [_hex_payload_to_binary, Except.ok.injEq] at h
      subst h
      simp
    | cons b rest => simp at hp
  | succ n ih =>
    intro p hp q h
    cases p with
    | nil =>
      simp only [_hex_payload_to_binary, Except.ok.injEq] at h
      subst h
      simp
    | cons b rest =>
      rw [_hex_payload_to_binary.eq_def] at h
      simp only [] at h
      by_cases hws : isAsciiWs b
      · rw [if_pos hws] at h
        have hr : rest.length ≤ n := by simp at hp; omega
        have := ih rest hr q h
        simp only [List.length_cons]
        omega
      · rw [if_neg hws] at h
        cases rest with
        | nil => exact absurd h (by simp)
        | cons c rest2 =>
          simp only [] at h
          cases hb : hexVal b with
          | none => rw [hb] at h; simp at h
          | some hi =>
            rw [hb] at h
            cases hc : hexVal c with
            | none => rw [hc] at h; simp at h
            | some lo =>
              rw [hc] at h
              simp only [] at h
              cases hr2 : _hex_payload_to_binary rest2 with
              | error e => rw [hr2] at h; simp [Except.map] at h
              | ok t =>
                rw [hr2] at h
                simp only [Except.map, Except.ok.injEq] at h
                subst h
                have hlen : rest2.length ≤ n := by simp at hp; omega
                have := ih rest2 hlen t hr2
                simp only [List.length_cons]
                omega

/-- A payload accepted by the hex-string gate is nonempty (the empty
bytes object makes int(payload, 16) raise ValueError). -/
theorem is_hex_string_ne_nil {p : List Nat} (h : _is_hex_string p = true) :
    p ≠ [] := by
  rintro rfl
  exact absurd h (by decide)

/-- A hex-decoded payload that passed the gate is strictly shorter
than the original payload. -/
theorem hex_decode_shrinks {p q : List Nat} (hh : _is_hex_string p = true)
    (hq : _hex_payload_to_binary p = .ok q) : q.length < p.length := by
  have h1 := hex_payload_to_binary_len p.length p le_rfl q hq
  have h2 : 0 < p.length := List.length_pos.mpr (is_hex_string_ne_nil hh)
  omega

/-- The message type discriminant of the han message classes (P1 data
readouts, HDLC frames, raw DLMS payloads). -/
inductive MeterMessageType where
  | p1
  | hdlc
  | unknownDlms
deriving DecidableEq

/-- The meter message values flowing through the pipeline: a P1 data
readout with its checksum validity, an HDLC frame with an optional
information payload and checksum validity, or a raw unframed DLMS
payload (always structurally valid). -/
inductive MeterMessage where
  | dataReadout (bytes : List Nat) (valid : Bool)
  | hdlcFrame (framePayload : Option (List Nat)) (valid : Bool)
  | dlmsMessage (bytes : List Nat)
deriving DecidableEq

/-- The message_type property of a meter message. -/
def MeterMessage.message_type : MeterMessage → MeterMessageType
  | .dataReadout _ _ => .p1
  | .hdlcFrame _ _ => .hdlc
  | .dlmsMessage _ => .unknownDlms

/-- The is_valid property of a meter message. -/
def MeterMessage.is_valid : MeterMessage → Bool
  | .dataReadout _ v => v
  | .hdlcFrame _ v => v
  | .dlmsMessage _ => true

/-- The payload property of a meter message (None only possible for an
empty HDLC frame). -/
def MeterMessage.payload : MeterMessage → Option (List Nat)
  | .dataReadout b _ => some b
  | .hdlcFrame pl _ => pl
  | .dlmsMessage b => some b

/-- Modelled from the spec: the external frame-reader capability (the
han library), specified only at its boundary.  p1parse models the
dlde.DataReadout constructor, whose error case is a Python ValueError;
initState and readBytes model a fresh stateful hdlc.HdlcFrameReader
that accumulates fed bytes and returns the complete frames recognised
by each read call. -/
structure HanModel (σ : Type) where
  p1parse : List Nat → Except Unit MeterMessage
  initState : σ
  readBytes : σ → List Nat → σ × List MeterMessage

/-- The HDLC flag sequence byte 0x7E of hdlc.HdlcFrameReader. -/
def flagByte : Nat := 126

/-- The P1 start marker byte, ASCII slash. -/
def slashByte : Nat := 47

/-- The P1 attempt of _try_read_meter_message: if the payload starts
with a slash, try the DataReadout constructor and return its message
on success; a ValueError falls through (modelled as none). -/
def p1step {σ : Type} (m : HanModel σ) (p : List Nat) : Option MeterMessage :=
  if p.head? = some slashByte then
    match m.p1parse p with
    | .ok message => some message
    | .error _ => none
  else none

/-- The HDLC attempt of _try_read_meter_message: a fresh reader; a
synthetic leading flag byte when the payload does not start with one
(frames from that read are discarded); the payload itself; then, if no
frame came out, a synthetic trailing flag byte; the first frame found,
if any. -/
def hdlcFirstFrame {σ : Type} (m : HanModel σ) (p : List Nat) :
    Option MeterMessage :=
  let reader0 := m.initState
  let reader1 :=
    if p.head? = some flagByte then reader0
    else (m.readBytes reader0 [flagByte]).1
  let r := m.readBytes reader1 p
  let frames := if r.2.length = 0 then (m.readBytes r.1 [flagByte]).2 else r.2
  frames.head?

/-- Embedding of metercon._try_read_meter_message: P1 attempt, HDLC
attempt, then, when the payload passes the hex-string gate, hex-decode
and re-classify recursively; a ValueError raised by the decode
propagates. -/
def _try_read_meter_message {σ : Type} (m : HanModel σ) (p : List Nat) :
    Except Unit (Option MeterMessage) :=
  match p1step m p with
  | some message => .ok (some message)
  | none =>
    match hdlcFirstFrame m p with
    | some f => .ok (some f)
    | none =>
      if hh : _is_hex_string p then
        match hq : _hex_payload_to_binary p with
        | .error e => .error e
        | .ok q => _try_read_meter_message m q
      else .ok none
termination_by p.length
decreasing_by exact hex_decode_shrinks hh hq

/-- Number of hex-decode passes performed by _try_read_meter_message
on a payload: one for each successful hex decode along the recursion. -/
def tryReadDecodes {σ : Type} (m : HanModel σ) (p : List Nat) : Nat :=
  match p1step m p with
  | some _ => 0
  | none =>
    match hdlcFirstFrame m p with
    | some _ => 0
    | none =>
      if hh : _is_hex_string p then
        match hq : _hex_payload_to_binary p with
        | .error _ => 0
        | .ok q => 1 + tryReadDecodes m q
      else 0
termination_by p.length
decreasing_by exact hex_decode_shrinks hh hq

/-- JSON whitespace bytes (space, tab, newline, carriage return),
dropped from the front. -/
def skipJsonWs (l : List Nat) : List Nat :=
  l.dropWhile (fun b => b = 32 || b = 9 || b = 10 || b = 13)

/-- A UTF-8 continuation byte. -/
def isUtf8Cont (b : Nat) : Bool :=
  decide (128 ≤ b ∧ b ≤ 191)

/-- Remainder after the body of a JSON string, entered after the
opening quote: escapes, a four-hex-digit unicode escape, no unescaped
control bytes, and well-formed UTF-8 for non-ASCII bytes. -/
def jsonStringRest : List Nat → Option (List Nat)
  | [] => none
  | b :: rest =>
    if b = 34 then some rest
    else if b = 92 then
      match rest with
      | [] => none
      | e :: rest2 =>
        if e = 34 ∨ e = 92 ∨ e = 47 ∨ e = 98 ∨ e = 102 ∨ e = 110 ∨
            e = 114 ∨ e = 116 then
          jsonStringRest rest2
        else if e = 117 then
          match rest2 with
          | h1 :: h2 :: h3 :: h4 :: rest6 =>
            if isHexDigitByte h1 ∧ isHexDigitByte h2 ∧ isHexDigitByte h3 ∧
                isHexDigitByte h4 then
              jsonStringRest rest6
            else none
          | _ => none
        else none
    else if b < 32 then none
    else if b ≤ 127 then jsonStringRest rest
    else if 194 ≤ b ∧ b ≤ 223 then
      match rest with
      | c1 :: rest2 => if isUtf8Cont c1 then jsonStringRest rest2 else none
      | _ => none
    else if 224 ≤ b ∧ b ≤ 239 then
      match rest with
      | c1 :: c2 :: rest3 =>
        if isUtf8Cont c1 ∧ isUtf8Cont c2 ∧ (b = 224 → 160 ≤ c1) ∧
            (b = 237 → c1 ≤ 159) then
          jsonStringRest rest3
        else none
      | _ => none
    else if 240 ≤ b ∧ b ≤ 244 then
      match rest with
      | c1 :: c2 :: c3 :: rest4 =>
        if isUtf8Cont c1 ∧ isUtf8Cont c2 ∧ isUtf8Cont c3 ∧
            (b = 240 → 144 ≤ c1) ∧ (b = 244 → c1 ≤ 143) then
          jsonStringRest rest4
        else none
      | _ => none
    else none

/-- An ASCII decimal digit byte. -/
def isDigitByte (b : Nat) : Bool :=
  decide (48 ≤ b ∧ b ≤ 57)

/-- Drop a run of decimal digit bytes. -/
def jsonDigits (l : List Nat) : List Nat :=
  l.dropWhile isDigitByte

/-- Remainder after a JSON exponent part, entered after the e or E:
optional sign, then at least one digit. -/
def jsonExpRest (l : List Nat) : Option (List Nat) :=
  let l1 := match l with
    | 43 :: r => r
    | 45 :: r => r
    | _ => l
  match l1 with
  | d :: _ => if isDigitByte d then some (jsonDigits l1) else none
  | [] => none

/-- Remainder after the optional fraction and exponent parts of a JSON
number. -/
def jsonFracExp (l : List Nat) : Option (List Nat) :=
  let l1 : Option (List Nat) := match l with
    | 46 :: d :: r =>
      if isDigitByte d then some (jsonDigits (d :: r)) else none
    | 46 :: [] => none
    | _ => some l
  match l1 with
  | none => none
  | some l2 =>
    match l2 with
    | 101 :: r => jsonExpRest r
    | 69 :: r => jsonExpRest r
    | _ => some l2

/-- Remainder after a JSON number: optional minus, an integer part
that is zero or starts with a nonzero digit, then fraction and
exponent parts. -/
def jsonNumber (l : List Nat) : Option (List Nat) :=
  let l1 := match l with
    | 45 :: r => r
    | _ => l
  match l1 with
  | 48 :: r => jsonFracExp r
  | d :: r => if isDigitByte d then jsonFracExp (jsonDigits r) else none
  | [] => none

mutual

/-- Remainder after one JSON value, with fuel bounding the nesting
depth: objects, arrays, strings, the three literals, the NaN and
Infinity extensions accepted by the Python decoder, or a number. -/
def jsonValue : Nat → List Nat → Option (List Nat)
  | 0, _ => none
  | Nat.succ fuel, l =>
    match skipJsonWs l with
    | 123 :: rest => jsonObjectRest fuel rest
    | 91 :: rest => jsonArrayRest fuel rest
    | 34 :: rest => jsonStringRest rest
    | 116 :: 114 :: 117 :: 101 :: rest => some rest
    | 102 :: 97 :: 108 :: 115 :: 101 :: rest => some rest
    | 110 :: 117 :: 108 :: 108 :: rest => some rest
    | 78 :: 97 :: 78 :: rest => some rest
    | 73 :: 110 :: 102 :: 105 :: 110 :: 105 :: 116 :: 121 :: rest => some rest
    | 45 :: 73 :: 110 :: 102 :: 105 :: 110 :: 105 :: 116 :: 121 :: rest =>
      some rest
    | l2 => jsonNumber l2

/-- Remainder after the members and closing brace of a JSON object,
entered after the opening brace or a comma: a quoted key, a colon, a
value, then either a comma and more members or the closing brace. -/
def jsonMembers : Nat → List Nat → Option (List Nat)
  | 0, _ => none
  | Nat.succ fuel, l =>
    match skipJsonWs l with
    | 34 :: rest =>
      match jsonStringRest rest with
      | some r1 =>
        match skipJsonWs r1 with
        | 58 :: r2 =>
          match jsonValue fuel r2 with
          | some r3 =>
            match skipJsonWs r3 with
            | 44 :: r4 => jsonMembers fuel r4
            | 125 :: r4 => some r4
            | _ => none
          | none => none
        | _ => none
      | none => none
    | _ => none

/-- Remainder after the rest of a JSON object, entered after the
opening brace: either the immediate closing brace or the members. -/
def jsonObjectRest : Nat → List Nat → Option (List Nat)
  | 0, _ => none
  | Nat.succ fuel, l =>
    match skipJsonWs l with
    | 125 :: rest => some rest
    | _ => jsonMembers fuel l

/-- Remainder after the elements of a JSON array, entered after the
opening bracket or a comma. -/
def jsonElements : Nat → List Nat → Option (List Nat)
  | 0, _ => none
  | Nat.succ fuel, l =>
    match jsonValue fuel l with
    | some r1 =>
      match skipJsonWs r1 with
      | 44 :: r2 => jsonElements fuel r2
      | 93 :: r2 => some r2
      | _ => none
    | none => none

/-- Remainder after the rest of a JSON array, entered after the
opening bracket. -/
def jsonArrayRest : Nat → List Nat → Option (List Nat)
  | 0, _ => none
  | Nat.succ fuel, l =>
    match skipJsonWs l with
    | 93 :: rest => some rest
    | _ => jsonElements fuel l

end

/-- Modelled from the spec: the JSON-object detection of the validity
gate (json.loads on the payload followed by an isinstance dict check).
True exactly when the whole payload parses as a JSON object; any parse
failure, including one that would raise ValueError in the decoder, and
any non-object top-level value give false.  The fuel bounds only the
nesting depth, which cannot exceed the payload length.  The UTF-16 and
UTF-32 byte-order-mark paths of the decoder are not modelled. -/
def jsonIsDict (p : List Nat) : Bool :=
  match skipJsonWs p with
  | 123 :: rest =>
    match jsonObjectRest (p.length + 1) rest with
    | some r => decide (skipJsonWs r = [])
    | none => false
  | _ => false

/-- Embedding of metercon.get_meter_message, from the payload bytes of
the mqtt message (the topic is used only in log lines): gate a
classified P1 message on is_valid; gate a classified frame on is_valid
and a present payload (the source returns the message only in the
nested branch where payload is not None, and otherwise falls through
to return None); with no classified message, drop JSON objects, else
pass the payload through as a DlmsMessage, hex-decoding it first when
it passes the hex-string gate. -/
def get_meter_message {σ : Type} (m : HanModel σ) (p : List Nat) :
    Except Unit (Option MeterMessage) :=
  match _try_read_meter_message m p with
  | .error e => .error e
  | .ok (some message) =>
    if message.message_type = MeterMessageType.p1 then
      if message.is_valid then .ok (some message)
      else .ok none
    else
      if message.is_valid then
        if (MeterMessage.payload message).isSome then .ok (some message)
        else .ok none
      else .ok none
  | .ok none =>
    if jsonIsDict p then .ok none
    else
      if _is_hex_string p then
        match _hex_payload_to_binary p with
        | .error e => .error e
        | .ok q => .ok (some (MeterMessage.dlmsMessage q))
      else .ok (some (MeterMessage.dlmsMessage p))

/-- Spec description of the HDLC attempt from a given reader state:
read the payload; if no frame was produced, feed one synthetic
trailing flag byte; return the first frame found, discarding extras. -/
def hdlcFirstFrameFrom {σ : Type} (m : HanModel σ) (s : σ) (p : List Nat) :
    Option MeterMessage :=
  match m.readBytes s p with
  | (s2, []) => ((m.readBytes s2 [flagByte]).2).head?
  | (_, f :: _) => some f

/-- The classifier from its second step on: the HDLC attempt, then the
hex-decode retry.  Used to state that a structural P1 parse failure
falls through to exactly this continuation. -/
def classifyFromStep2 {σ : Type} (m : HanModel σ) (p : List Nat) :
    Except Unit (Option MeterMessage) :=
  match hdlcFirstFrame m p with
  | some f => .ok (some f)
  | none =>
    if hh : _is_hex_string p then
      match hq : _hex_payload_to_binary p with
      | .error e => .error e
      | .ok q => _try_read_meter_message m q
    else .ok none

/-- Python str.split on a comma separator: split(",") never drops
pieces, and an empty string yields one empty piece. -/
def splitComma : List Char → List (List Char)
  | [] => [[]]
  | c :: rest =>
    if c = ',' then [] :: splitComma rest
    else
      match splitComma rest with
      | [] => [[c]]
      | g :: gs => (c :: g) :: gs

/-- ASCII whitespace for Python str.strip (the unicode-only whitespace
characters are not needed for the configuration strings modelled
here). -/
def isPySpaceChar (c : Char) : Bool :=
  c.toNat = 32 || c.toNat = 9 || c.toNat = 10 || c.toNat = 11 ||
    c.toNat = 12 || c.toNat = 13

/-- Python str.strip: whitespace removed from both ends. -/
def pyStrip (s : List Char) : List Char :=
  ((s.dropWhile isPySpaceChar).reverse.dropWhile isPySpaceChar).reverse

/-- Embedding of the subscribed-topic set computation of
async_setup_meter_mqtt_subscriptions: the configured string is split
on commas, each piece stripped, and the results collected as a set. -/
def mqtt_topics (cfg : List Char) : Finset (List Char) :=
  ((splitComma cfg).map pyStrip).toFinset

/-- A frame-reader model that recognises nothing: the P1 constructor
raises ValueError and every read yields no frames. -/
def neverModel : HanModel Unit where
  p1parse := fun _ => .error ()
  initState := ()
  readBytes := fun s _ => (s, [])

/-- A frame-reader model whose every read emits the single given
frame, and whose P1 constructor raises ValueError. -/
def constFrameModel (msg : MeterMessage) : HanModel Unit where
  p1parse := fun _ => .error ()
  initState := ()
  readBytes := fun s _ => (s, [msg])

/-- With no P1 success, the classifier equals its continuation from
the HDLC step on. -/
theorem try_read_step2 {σ : Type} (m : HanModel σ) (p : List Nat)
    (hps : p1step m p = none) :
    _try_read_meter_message m p = classifyFromStep2 m p := by
  rw [_try_read_meter_message.eq_def, hps]
  rfl

/-- When the HDLC attempt found nothing and the payload hex-decodes,
the continuation re-classifies the decoded bytes. -/
theorem classify_hex_step {σ : Type} (m : HanModel σ) (p q : List Nat)
    (hff : hdlcFirstFrame m p = none) (hh : _is_hex_string p = true)
    (hq : _hex_payload_to_binary p = .ok q) :
    classifyFromStep2 m p = _try_read_meter_message m q := by
  simp only [classifyFromStep2]
  rw [hff]
  simp only []
  rw [dif_pos hh]
  split
  · rename_i e heq
    rw [hq] at heq
    cases heq
  · rename_i q2 heq
    rw [hq] at heq
    cases heq
    rfl

/-- The decode counter increases by exactly one across a successful
hex-decode retry. -/
theorem decodes_step {σ : Type} (m : HanModel σ) (p q : List Nat)
    (hps : p1step m p = none) (hff : hdlcFirstFrame m p = none)
    (hh : _is_hex_string p = true) (hq : _hex_payload_to_binary p = .ok q) :
    tryReadDecodes m p = 1 + tryReadDecodes m q := by
  rw [tryReadDecodes.eq_def, hps]
  simp only []
  rw [hff]
  simp only []
  rw [dif_pos hh]
  split
  · rename_i e heq
    rw [hq] at heq
    cases heq
  · rename_i q2 heq
    rw [hq] at heq
    cases heq
    rfl

/-- Lower-case hex digit bytes have the expected digit value and are
not whitespace. -/
theorem hexDigitChar_spec :
    ∀ n, n < 16 →
      hexVal (hexDigitChar n) = some n ∧ isAsciiWs (hexDigitChar n) = false := by
  decide

/-- C2: the pipeline is not exception-free.  At the payload plus-one
(bytes 43, 49) the hex-string gate passes, because int accepts a sign,
but bytes.fromhex rejects the sign, so get_meter_message raises
ValueError (the error outcome) instead of returning a message or
nothing. -/
theorem C2_decode_raises :
    _is_hex_string [43, 49] = true ∧
    _hex_payload_to_binary [43, 49] = .error () ∧
    get_meter_message neverModel [43, 49] = .error () := by
  refine ⟨by decide, rfl, ?_⟩
  have h : _try_read_meter_message neverModel [43, 49] = .error () := by
    rw [_try_read_meter_message.eq_def]
    rfl
  simp only [get_meter_message, h]

/-- C4: _is_hex_string is not the all-hex-digit test the claim states.
The even-length payload plus-one (bytes 43, 49) contains a non-hex
byte yet is accepted, and the empty payload, which the claim counts as
trivially valid, is rejected because int of an empty bytes object
raises ValueError. -/
theorem C4_is_hex_string_gap :
    _is_hex_string [43, 49] = true ∧
    isHexDigitByte 43 = false ∧
    [43, 49].length % 2 = 0 ∧
    _is_hex_string [] = false := by
  decide

/-- C8: hex decoding round-trips with hex encoding: fromhex applied to
bytes.hex of any byte sequence returns exactly that sequence. -/
theorem C8_hex_roundtrip (b : List Nat) (hb : ∀ x ∈ b, x < 256) :
    _hex_payload_to_binary (hexEncode b) = .ok b := by
  induction b with
  | nil => rfl
  | cons x rest ih =>
    have hx : x < 256 := hb x (by simp)
    have hrest := ih (fun y hy => hb y (by simp [hy]))
    have h1 := hexDigitChar_spec (x / 16) (by omega)
    have h2 := hexDigitChar_spec (x % 16) (by omega)
    show _hex_payload_to_binary
        (hexDigitChar (x / 16) :: hexDigitChar (x % 16) :: hexEncode rest) =
      .ok (x :: rest)
    rw [_hex_payload_to_binary.eq_def]
    simp only []
    rw [if_neg (by rw [h1.2]; exact Bool.false_ne_true)]
    rw [h1.1, h2.1]
    simp only []
    rw [hrest]
    simp only [Except.map, Except.ok.injEq, List.cons.injEq]
    exact ⟨by omega, trivial⟩

/-- Witness for C8 at the concrete byte sequence 0, 171, 255. -/
theorem C8_hex_roundtrip_witness :
    (∀ x ∈ [0, 171, 255], x < 256) ∧
    _hex_payload_to_binary (hexEncode [0, 171, 255]) = .ok [0, 171, 255] :=
  ⟨by decide, C8_hex_roundtrip [0, 171, 255] (by decide)⟩

/-- C9: the subscribed-topic set is the set of comma-separated,
whitespace-stripped entries of the configuration string, and the
configuration a-comma-space-b-space-comma-a yields exactly the
two-element set of a and b. -/
theorem C9_topics :
    (∀ (cfg t : List Char),
      t ∈ mqtt_topics cfg ↔ ∃ piece ∈ splitComma cfg, pyStrip piece = t) ∧
    mqtt_topics ['a', ',', ' ', 'b', ' ', ',', 'a'] = {['a'], ['b']} := by
  constructor
  · intro cfg t
    simp [mqtt_topics, List.mem_map]
  · decide

/-- C10: the hex-decode recursion of _try_read_meter_message is
well-founded on payload length: a payload passing the hex gate is
nonempty and of even length, and its decode is at most half as long,
hence strictly shorter.  The Lean embedding is accepted as total with
exactly this measure. -/
theorem C10_termination_measure (p : List Nat)
    (hh : _is_hex_string p = true) :
    p ≠ [] ∧ p.length % 2 = 0 ∧
    ∀ q, _hex_payload_to_binary p = .ok q →
      2 * q.length ≤ p.length ∧ q.length < p.length := by
  refine ⟨is_hex_string_ne_nil hh, ?_,
    fun q hq => ⟨hex_payload_to_binary_len p.length p le_rfl q hq,
      hex_decode_shrinks hh hq⟩⟩
  have h := (Bool.and_eq_true _ _).mp hh
  exact of_decide_eq_true h.1

/-- Witness for C10 at the concrete hex payload of bytes 51, 49, whose
decode is the single byte 49. -/
theorem C10_termination_measure_witness :
    _is_hex_string [51, 49] = true ∧ [51, 49] ≠ ([] : List Nat) ∧
    [51, 49].length % 2 = 0 ∧
    2 * [49].length ≤ [51, 49].length ∧ [49].length < [51, 49].length := by
  have h := C10_termination_measure [51, 49] (by decide)
  exact ⟨by decide, h.1, h.2.1, (h.2.2 [49] rfl).1, (h.2.2 [49] rfl).2⟩

/-- C1 counterexample: a classified HDLC frame that is valid but
carries no payload is rejected by the gate, so acceptance is not
equivalent to is_valid and payload presence is not a logging-only
distinction. -/
theorem C1_counterexample :
    _try_read_meter_message
        (constFrameModel (MeterMessage.hdlcFrame none true)) [] =
      .ok (some (MeterMessage.hdlcFrame none true)) ∧
    (MeterMessage.hdlcFrame none true).is_valid = true ∧
    get_meter_message (constFrameModel (MeterMessage.hdlcFrame none true)) [] =
      .ok none := by
  have h : _try_read_meter_message
      (constFrameModel (MeterMessage.hdlcFrame none true)) [] =
      .ok (some (MeterMessage.hdlcFrame none true)) := by
    rw [_try_read_meter_message.eq_def]
    rfl
  refine ⟨h, rfl, ?_⟩
  simp only [get_meter_message, h]
  rfl

/-- C1 amended: the gate accepts a classified non-P1 message exactly
when it is valid AND its payload is present; an invalid frame is
rejected regardless of payload presence, and a valid-but-empty frame
is rejected as well. -/
theorem C1_frame_gate {σ : Type} (m : HanModel σ) (p : List Nat)
    (message : MeterMessage)
    (hmsg : _try_read_meter_message m p = .ok (some message))
    (hty : message.message_type ≠ MeterMessageType.p1) :
    get_meter_message m p =
      .ok (if message.is_valid ∧ (MeterMessage.payload message).isSome
        then some message else none) := by
  simp only [get_meter_message, hmsg]
  rw [if_neg hty]
  by_cases hv : message.is_valid = true
  · by_cases hp2 : (MeterMessage.payload message).isSome = true
    · rw [if_pos hv, if_pos hp2, if_pos ⟨hv, hp2⟩]
    · rw [if_pos hv, if_neg hp2, if_neg (fun hc => hp2 hc.2)]
  · rw [if_neg hv, if_neg (fun hc => hv hc.1)]

/-- Witness for amended C1: a valid frame with a present payload is
accepted unchanged. -/
theorem C1_frame_gate_witness :
    get_meter_message
        (constFrameModel (MeterMessage.hdlcFrame (some [7]) true)) [] =
      .ok (some (MeterMessage.hdlcFrame (some [7]) true)) := by
  have h := C1_frame_gate
    (constFrameModel (MeterMessage.hdlcFrame (some [7]) true)) []
    (MeterMessage.hdlcFrame (some [7]) true)
    (by rw [_try_read_meter_message.eq_def]; rfl) (by decide)
  rw [h, if_pos ⟨rfl, rfl⟩]

/-- C3 counterexample: the hex payload 3131 (bytes 51, 49, 51, 49)
decodes to the hex text 11, which is decoded AGAIN to the byte 17: two
decode passes happen, so the retry is not bounded by one recursion
level. -/
theorem C3_counterexample :
    tryReadDecodes neverModel [51, 49, 51, 49] = 2 ∧
    ¬ tryReadDecodes neverModel [51, 49, 51, 49] ≤ 1 := by
  have h : tryReadDecodes neverModel [51, 49, 51, 49] = 2 := by
    rw [tryReadDecodes.eq_def]
    show 1 + tryReadDecodes neverModel [49, 49] = 2
    rw [tryReadDecodes.eq_def]
    show 1 + (1 + tryReadDecodes neverModel [17]) = 2
    rw [tryReadDecodes.eq_def]
    rfl
  refine ⟨h, ?_⟩
  omega

/-- C3 amended: a hex-decode pass happens only when the P1 attempt
produced nothing, the HDLC attempts produced no frame, and the payload
passes the hex gate; the decoded bytes are then re-classified by a
full recursive call, each pass adding one to the decode count, with no
one-level bound. -/
theorem C3_hex_retry {σ : Type} (m : HanModel σ) (p : List Nat) :
    (0 < tryReadDecodes m p →
      p1step m p = none ∧ hdlcFirstFrame m p = none ∧
        _is_hex_string p = true) ∧
    (∀ q, p1step m p = none → hdlcFirstFrame m p = none →
      _is_hex_string p = true → _hex_payload_to_binary p = .ok q →
      _try_read_meter_message m p = _try_read_meter_message m q ∧
      tryReadDecodes m p = 1 + tryReadDecodes m q) := by
  constructor
  · intro hd
    rw [tryReadDecodes.eq_def] at hd
    cases hps : p1step m p with
    | some msg => rw [hps] at hd; simp at hd
    | none =>
      rw [hps] at hd
      simp only [] at hd
      cases hff : hdlcFirstFrame m p with
      | some f => rw [hff] at hd; simp at hd
      | none =>
        rw [hff] at hd
        simp only [] at hd
        by_cases hh : _is_hex_string p = true
        · exact ⟨rfl, rfl, hh⟩
        · rw [dif_neg hh] at hd
          simp at hd
  · intro q hps hff hh hq
    refine ⟨?_, decodes_step m p q hps hff hh hq⟩
    rw [try_read_step2 m p hps]
    exact classify_hex_step m p q hff hh hq

/-- Witness for amended C3 at the concrete hex payload of bytes 51 and
49, which decodes to the byte 49. -/
theorem C3_hex_retry_witness :
    _try_read_meter_message neverModel [51, 49] =
      _try_read_meter_message neverModel [49] ∧
    tryReadDecodes neverModel [51, 49] = 1 + tryReadDecodes neverModel [49] :=
  (C3_hex_retry neverModel [51, 49]).2 [49] rfl rfl (by decide) rfl

/-- C5: when the classifier finds nothing, the gate rejects payloads
parsing as JSON objects and passes every other payload through as a
DlmsMessage, hex-decoded first when it passes the hex gate, otherwise
carrying exactly the original bytes. -/
theorem C5_unframed_fallback {σ : Type} (m : HanModel σ) (p : List Nat)
    (hnone : _try_read_meter_message m p = .ok none) :
    (jsonIsDict p = true → get_meter_message m p = .ok none) ∧
    (jsonIsDict p = false → _is_hex_string p = false →
      get_meter_message m p = .ok (some (MeterMessage.dlmsMessage p))) ∧
    (jsonIsDict p = false → ∀ q, _is_hex_string p = true →
      _hex_payload_to_binary p = .ok q →
      get_meter_message m p = .ok (some (MeterMessage.dlmsMessage q))) := by
  refine ⟨fun hj => ?_, fun hj hx => ?_, fun hj q hx hq => ?_⟩
  · simp only [get_meter_message, hnone]
    rw [if_pos hj]
  · simp only [get_meter_message, hnone]
    rw [if_neg (by simp [hj]), if_neg (by simp [hx])]
  · simp only [get_meter_message, hnone]
    rw [if_neg (by simp [hj]), if_pos hx]
    simp only [hq]

/-- Witness for C5: a JSON object payload is rejected; five arbitrary
binary bytes pass through unchanged; the hex payload 3132 passes
through hex-decoded. -/
theorem C5_unframed_fallback_witness :
    get_meter_message neverModel [123, 34, 97, 34, 58, 49, 125] = .ok none ∧
    get_meter_message neverModel [1, 2, 3, 4, 5] =
      .ok (some (MeterMessage.dlmsMessage [1, 2, 3, 4, 5])) ∧
    get_meter_message neverModel [51, 49, 51, 50] =
      .ok (some (MeterMessage.dlmsMessage [49, 50])) := by
  have h1 : _try_read_meter_message neverModel [123, 34, 97, 34, 58, 49, 125] =
      .ok none := by
    rw [_try_read_meter_message.eq_def]
    rfl
  have h2 : _try_read_meter_message neverModel [1, 2, 3, 4, 5] = .ok none := by
    rw [_try_read_meter_message.eq_def]
    rfl
  have h3 : _try_read_meter_message neverModel [51, 49, 51, 50] = .ok none := by
    rw [_try_read_meter_message.eq_def]
    show _try_read_meter_message neverModel [49, 50] = .ok none
    rw [_try_read_meter_message.eq_def]
    show _try_read_meter_message neverModel [18] = .ok none
    rw [_try_read_meter_message.eq_def]
    rfl
  exact ⟨(C5_unframed_fallback neverModel _ h1).1 (by decide),
    (C5_unframed_fallback neverModel _ h2).2.1 (by decide) (by decide),
    (C5_unframed_fallback neverModel _ h3).2.2 (by decide) [49, 50]
      (by decide) rfl⟩

/-- C6: the HDLC step feeds a synthetic leading flag byte exactly when
the payload does not start with one, feeds a synthetic trailing flag
byte exactly when reading the payload produced no frame, and returns
the first frame found, discarding extras. -/
theorem C6_hdlc_feeding {σ : Type} (m : HanModel σ) (p : List Nat) :
    (p.head? ≠ some flagByte →
      hdlcFirstFrame m p =
        hdlcFirstFrameFrom m ((m.readBytes m.initState [flagByte]).1) p) ∧
    (p.head? = some flagByte →
      hdlcFirstFrame m p = hdlcFirstFrameFrom m m.initState p) ∧
    (∀ (s : σ) (f : MeterMessage) (fs : List MeterMessage),
      (m.readBytes s p).2 = f :: fs → hdlcFirstFrameFrom m s p = some f) ∧
    (∀ s : σ, (m.readBytes s p).2 = [] →
      hdlcFirstFrameFrom m s p =
        ((m.readBytes (m.readBytes s p).1 [flagByte]).2).head?) := by
  have hfrom : ∀ s : σ, hdlcFirstFrameFrom m s p =
      (if (m.readBytes s p).2.length = 0
        then (m.readBytes (m.readBytes s p).1 [flagByte]).2
        else (m.readBytes s p).2).head? := by
    intro s
    simp only [hdlcFirstFrameFrom]
    rcases hr : m.readBytes s p with ⟨s2, frames⟩
    cases frames with
    | nil => simp
    | cons f fs => simp
  refine ⟨fun hne => ?_, fun he => ?_, fun s f fs hf => ?_, fun s h0 => ?_⟩
  · simp only [hdlcFirstFrame]
    rw [if_neg hne, hfrom]
  · simp only [hdlcFirstFrame]
    rw [if_pos he, hfrom]
  · rw [hfrom s, hf]
    simp
  · rw [hfrom s, h0]
    simp

/-- Witness for C6: with a single-byte payload not starting with the
flag byte and a reader that always emits one frame, the first (and
only) frame is returned. -/
theorem C6_hdlc_feeding_witness :
    hdlcFirstFrame
        (constFrameModel (MeterMessage.hdlcFrame (some [7]) true)) [5] =
      hdlcFirstFrameFrom
        (constFrameModel (MeterMessage.hdlcFrame (some [7]) true)) () [5] ∧
    hdlcFirstFrameFrom
        (constFrameModel (MeterMessage.hdlcFrame (some [7]) true)) () [5] =
      some (MeterMessage.hdlcFrame (some [7]) true) :=
  ⟨(C6_hdlc_feeding (constFrameModel (MeterMessage.hdlcFrame (some [7]) true))
      [5]).1 (by decide),
   (C6_hdlc_feeding (constFrameModel (MeterMessage.hdlcFrame (some [7]) true))
      [5]).2.2.1 () (MeterMessage.hdlcFrame (some [7]) true) [] rfl⟩

/-- C7: a payload starting with the P1 marker whose DataReadout
constructor raises ValueError is not an error of the classifier: the
classification continues with the HDLC step on the same payload. -/
theorem C7_p1_fallthrough {σ : Type} (m : HanModel σ) (p : List Nat)
    (hslash : p.head? = some slashByte) (herr : m.p1parse p = .error ()) :
    _try_read_meter_message m p = classifyFromStep2 m p := by
  have hps : p1step m p = none := by
    simp [p1step, hslash, herr]
  exact try_read_step2 m p hps

/-- Witness for C7 at the two-byte payload slash-A with a P1 parser
that always raises. -/
theorem C7_p1_fallthrough_witness :
    _try_read_meter_message neverModel [47, 65] =
      classifyFromStep2 neverModel [47, 65] :=
  C7_p1_fallthrough neverModel [47, 65] rfl rfl

